import Mathlib

/-!
Verification of the Director's Cut / Outgunned dice-bot roll-session layer.

The controller layer (`bot/controller.py`) is embedded directly.  The
collaborator modules `bot/dice.py` (DiceSet), `bot/roll.py`
(RollHistory / Roller) and `bot/message.py` (MessageGenerator /
MessageParser) are not part of the provided sources; they are modelled
from the specification, as marked on each definition.
-/

/-- Modelled from the spec: `bot/dice.py` is missing from the sources.
A DiceSet is an immutable value with a canonical short-string form
(`value`), used both for settings storage and inside button tokens. -/
structure DiceSet where
  value : String
deriving DecidableEq, Repr

/-- Modelled from the spec: the spec fixes only that the string "basic" is
a valid DiceSet short string and that invalid strings are rejected; the
concrete set of valid short strings is not given, so it is modelled as a
list containing "basic". -/
def validDiceSetValues : List String := ["basic"]

/-- Modelled from the spec: validity of a DiceSet short string. -/
def DiceSet.isValid (s : String) : Bool := validDiceSetValues.contains s

deriving instance DecidableEq for Except

/-- Error raised by the DiceSet constructor on an invalid short string. -/
inductive DiceSetError where
  | invalid
deriving DecidableEq, Repr

/-- Modelled from the spec: the DiceSet constructor `DiceSet(s)` accepts a
short string, rejecting invalid strings with an error rather than
defaulting. -/
def DiceSet.parse (s : String) : Except DiceSetError DiceSet :=
  if DiceSet.isValid s then .ok ⟨s⟩ else .error .invalid

/-- Modelled from the spec: serialization is the canonical short-string
form of the DiceSet. -/
def DiceSet.serialize (d : DiceSet) : String := d.value

/-- A single die face of the d6-based system (0 represents face 1, …,
5 represents face 6). -/
abbrev DieFace := Fin 6

/-- One roll outcome: the faces shown by the dice of one (re)roll. -/
abbrev Outcome := List DieFace

/-- Modelled from the spec: the injected eligibility policy
`eligibility(outcome) -> {free_reroll: bool, all_in: bool}` that the
excluded scoring logic provides for an initial roll outcome. -/
structure Eligibility where
  free_reroll : Bool
  all_in : Bool
deriving DecidableEq, Repr

/-- Modelled from the spec: `bot/roll.py` is missing from the sources.
A RollHistory holds the ordered sequence of outcomes, the three one-time
right flags, and whether a terminal follow-up action has already fired. -/
structure RollHistory where
  outcomes : List Outcome
  reroll_available : Bool
  free_reroll_available : Bool
  all_in_available : Bool
  action_fired : Bool
deriving DecidableEq, Repr

/-- Modelled from the spec: error for a transition attempted while its
guard is false (right unavailable or session already terminal). -/
inductive RollError where
  | IllegalTransition
deriving DecidableEq, Repr

/-- Modelled from the spec: legality query, a pure read of the reroll
flag combined with no terminal action having fired yet. -/
def RollHistory.can_reroll (h : RollHistory) : Bool :=
  h.reroll_available && !h.action_fired

/-- Modelled from the spec: legality query for the free re-roll right. -/
def RollHistory.can_free_reroll (h : RollHistory) : Bool :=
  h.free_reroll_available && !h.action_fired

/-- Modelled from the spec: legality query for the all-in right. -/
def RollHistory.can_go_all_in (h : RollHistory) : Bool :=
  h.all_in_available && !h.action_fired

/-- The dice produced by one roll of `n` dice; the random generator is
resolved externally and passed in as `rng`. -/
def rollDice (n : Nat) (rng : Nat → DieFace) : Outcome :=
  (List.range n).map rng

/-- Modelled from the spec: `Roller.roll()` from `Fresh` records exactly
one outcome, always offers the reroll, and gates free-reroll / all-in by
the injected eligibility policy applied to the outcome. -/
def Roller.roll (num_dice : Nat) (rng : Nat → DieFace)
    (elig : Outcome → Eligibility) : RollHistory :=
  let o := rollDice num_dice rng
  { outcomes := [o]
    reroll_available := true
    free_reroll_available := (elig o).free_reroll
    all_in_available := (elig o).all_in
    action_fired := false }

/-- Modelled from the spec: `Roller.reroll()` — guarded by `can_reroll`,
appends the freshly rolled outcome, consumes the reroll right and makes
the session terminal; fails with `IllegalTransition` otherwise. -/
def RollHistory.reroll (h : RollHistory) (sample : Outcome) :
    Except RollError RollHistory :=
  if h.can_reroll then
    .ok { h with outcomes := h.outcomes ++ [sample],
                 reroll_available := false, action_fired := true }
  else .error .IllegalTransition

/-- Modelled from the spec: `Roller.free_reroll()` — same contract as
`reroll`, gated by its own right flag. -/
def RollHistory.free_reroll (h : RollHistory) (sample : Outcome) :
    Except RollError RollHistory :=
  if h.can_free_reroll then
    .ok { h with outcomes := h.outcomes ++ [sample],
                 free_reroll_available := false, action_fired := true }
  else .error .IllegalTransition

/-- Modelled from the spec: `Roller.all_in()` — same contract as
`reroll`, gated by its own right flag. -/
def RollHistory.all_in (h : RollHistory) (sample : Outcome) :
    Except RollError RollHistory :=
  if h.can_go_all_in then
    .ok { h with outcomes := h.outcomes ++ [sample],
                 all_in_available := false, action_fired := true }
  else .error .IllegalTransition

/-- The three follow-up actions, matching the three dynamic button
classes of `bot/controller.py`. -/
inductive FollowKind where
  | reroll
  | freeReroll
  | allIn
deriving DecidableEq, Repr

/-- The legality query each button callback consults, by kind
(`can_reroll` / `can_free_reroll` / `can_go_all_in`). -/
def canFor (k : FollowKind) (h : RollHistory) : Bool :=
  match k with
  | .reroll => h.can_reroll
  | .freeReroll => h.can_free_reroll
  | .allIn => h.can_go_all_in

/-- The Roller transition each button callback dispatches, by kind. -/
def applyFollow (k : FollowKind) (h : RollHistory) (sample : Outcome) :
    Except RollError RollHistory :=
  match k with
  | .reroll => h.reroll sample
  | .freeReroll => h.free_reroll sample
  | .allIn => h.all_in sample

/-- Error raised by MessageParser on content that does not conform to the
message mini-format. -/
inductive ParseError where
  | malformed
deriving DecidableEq, Repr

/-- One flag character of the mini-format. -/
def encodeFlag (b : Bool) : Char := if b then 'T' else 'F'

/-- Inverse of `encodeFlag`; any other character is malformed. -/
def decodeFlag (c : Char) : Option Bool :=
  if c = 'T' then some true else if c = 'F' then some false else none

/-- One die face rendered as its digit character '1'-'6'. -/
def encodeDie (d : DieFace) : Char := Char.ofNat (49 + d.val)

/-- Inverse of `encodeDie`; any other character is malformed. -/
def decodeDie (c : Char) : Option DieFace :=
  if h : 49 ≤ c.toNat ∧ c.toNat ≤ 54 then some ⟨c.toNat - 49, by omega⟩
  else none

/-- The outcome-sequence section of the mini-format: each outcome is the
marker 'o' followed by its die digits, so the sequence structure (empty
outcomes included) is recovered unambiguously. -/
def encodeOutcomes (l : List Outcome) : List Char :=
  (l.map (fun oc => 'o' :: oc.map encodeDie)).flatten

/-- Reads the outcome-sequence section, accumulating the outcomes (and
the dice of the current outcome) in reverse. -/
def decodeOutcomesAux : List Char → List Outcome → Option (List Outcome)
  | [], acc => some ((acc.map List.reverse).reverse)
  | c :: rest, acc =>
    if c = 'o' then decodeOutcomesAux rest ([] :: acc)
    else
      match acc, decodeDie c with
      | cur :: prev, some d => decodeOutcomesAux rest ((d :: cur) :: prev)
      | _, _ => none

/-- Inverse of `encodeOutcomes`. -/
def decodeOutcomes (cs : List Char) : Option (List Outcome) :=
  decodeOutcomesAux cs []

/-- Modelled from the spec: `bot/message.py` is missing from the sources.
`MessageGenerator(dice_set).generate_roll_message(roll_history)` renders
a RollHistory deterministically; the exact textual layout is an internal
contract left open by the spec, modelled here as a fixed header, four
flag characters (the three rights and the terminal marker) and the
outcome sequence. -/
def MessageGenerator.generate_roll_message (d : DiceSet) (h : RollHistory) :
    String :=
  String.mk ('R' :: 'o' :: 'l' :: 'l' :: ':' ::
    encodeFlag h.reroll_available :: encodeFlag h.free_reroll_available ::
    encodeFlag h.all_in_available :: encodeFlag h.action_fired :: ':' ::
    encodeOutcomes h.outcomes)

/-- The character-level parser of the mini-format. -/
def parseRollChars : List Char → Except ParseError RollHistory
  | 'R' :: 'o' :: 'l' :: 'l' :: ':' :: r :: f :: a :: t :: ':' :: rest =>
    match decodeFlag r, decodeFlag f, decodeFlag a, decodeFlag t,
        decodeOutcomes rest with
    | some rv, some fv, some av, some tv, some outs =>
      .ok { outcomes := outs, reroll_available := rv,
            free_reroll_available := fv, all_in_available := av,
            action_fired := tv }
    | _, _, _, _, _ => .error .malformed
  | _ => .error .malformed

/-- Modelled from the spec: `MessageParser(interaction, dice_set)`
recovers the RollHistory from the rendered message content, failing with
a ParseError on content that does not match the mini-format. -/
def MessageParser.parse (d : DiceSet) (content : String) :
    Except ParseError RollHistory :=
  parseRollChars content.data

/-- ASCII decimal digit character test, the `[0-9]` class of the button
templates. -/
def isDigitChar (c : Char) : Bool := 48 ≤ c.toNat && c.toNat ≤ 57

/-- The templates' `\w` word-character class is Unicode-aware (underscore
plus every Unicode alphanumeric character); its full table is out of
scope here, so the matcher below takes the class as an explicit parameter
`w : Char → Bool` and every statement about it holds for an arbitrary
class — in particular for the real Unicode-aware one.  The other pieces
of the templates (`[0-9]` and the literals) are ASCII by definition and
are modelled concretely. -/
def asciiWordChar (c : Char) : Bool :=
  c = '_' || isDigitChar c ||
  (65 ≤ c.toNat && c.toNat ≤ 90) || (97 ≤ c.toNat && c.toNat ≤ 122)

/-- A decimal digit rendered as its character. -/
def digitToChar (d : Nat) : Char := Char.ofNat (48 + d)

/-- The decimal rendering `str(user_id)` the f-strings interpolate into a
custom id. -/
def natToChars (n : Nat) : List Char :=
  if n = 0 then ['0'] else ((Nat.digits 10 n).map digitToChar).reverse

/-- Value of a decimal digit character. -/
def charToDigit (c : Char) : Nat := c.toNat - 48

/-- The `int(...)` conversion applied to the matched digit group. -/
def parseNatChars (cs : List Char) : Nat :=
  Nat.ofDigits 10 ((cs.map charToDigit).reverse)

/-- The action-kind token inside each button class's custom id and
template. -/
def kindToken : FollowKind → List Char
  | .reroll => ['r', 'e', 'r', 'o', 'l', 'l']
  | .freeReroll => ['f', 'r', 'e', 'e', '_', 'r', 'e', 'r', 'o', 'l', 'l']
  | .allIn => ['a', 'l', 'l', '_', 'i', 'n']

/-- The literal head of a template: `roll:<kind>:user:`. -/
def headChars (k : FollowKind) : List Char :=
  ['r', 'o', 'l', 'l', ':'] ++ kindToken k ++ [':', 'u', 's', 'e', 'r', ':']

/-- The literal separator `:dice_set:` between the two capture groups. -/
def diceSetSep : List Char :=
  [':', 'd', 'i', 'c', 'e', '_', 's', 'e', 't', ':']

/-- The characters of the custom id built by a button constructor:
`roll:<kind>:user:{user_id}:dice_set:{dice_set.value}`. -/
def customIdChars (k : FollowKind) (user_id : Nat) (v : List Char) :
    List Char :=
  headChars k ++ natToChars user_id ++ diceSetSep ++ v

/-- The custom id string attached to a freshly constructed button. -/
def customId (k : FollowKind) (user_id : Nat) (d : DiceSet) : String :=
  String.mk (customIdChars k user_id d.value.data)

/-- Strips an expected literal, returning the remainder on success. -/
def stripLit : List Char → List Char → Option (List Char)
  | [], cs => some cs
  | _ :: _, [] => none
  | p :: ps, c :: cs => if c = p then stripLit ps cs else none

/-- Splits off the longest leading run of decimal digit characters, the
greedy `[0-9]+` group. -/
def spanDigits : List Char → List Char × List Char
  | [] => ([], [])
  | c :: cs =>
    if isDigitChar c then
      let p := spanDigits cs
      (c :: p.1, p.2)
    else ([], c :: cs)

/-- Full match of a button class's template
`roll:<kind>:user:(?P<user_id>[0-9]+):dice_set:(?P<dice_set>\w+)` against
a custom id, as the dispatcher performs on a press after a restart;
returns the two captured groups, the digit group already converted by
`int(...)`.  The engine's word-character class `\w` is passed in as `w`
(see `asciiWordChar`); the decomposition is deterministic because the
greedy `[0-9]+` group cannot cross the following literal ':' and the
`\w+` group must cover the whole remaining tail of the full match. -/
def templateFullmatch (w : Char → Bool) (k : FollowKind) (s : String) :
    Option (Nat × String) :=
  match stripLit (headChars k) s.data with
  | none => none
  | some cs1 =>
    match spanDigits cs1 with
    | ([], _) => none
    | (c :: cs, rest1) =>
      match stripLit diceSetSep rest1 with
      | none => none
      | some tail =>
        if !tail.isEmpty && tail.all w then
          some (parseNatChars (c :: cs), String.mk tail)
        else none

/-- The Discord button styles used by the three button classes. -/
inductive BtnStyle where
  | green
  | blurple
  | red
deriving DecidableEq, Repr

/-- The label of each button class. -/
def labelFor : FollowKind → String
  | .reroll => "Re-roll"
  | .freeReroll => "Free Re-roll"
  | .allIn => "All In"

/-- The style of each button class. -/
def styleFor : FollowKind → BtnStyle
  | .reroll => .green
  | .freeReroll => .blurple
  | .allIn => .red

/-- A dynamic button as constructed by `DynamicRerollButton`,
`DynamicFreeRerollButton` or `DynamicAllInButton`: the stored `user_id`
and `dice_set` plus the wrapped `discord.ui.Button` data. -/
structure ButtonItem where
  kind : FollowKind
  user_id : Nat
  dice_set : DiceSet
  label : String
  style : BtnStyle
  custom_id : String
deriving DecidableEq, Repr

/-- A button class's constructor. -/
def mkButton (k : FollowKind) (user_id : Nat) (d : DiceSet) : ButtonItem :=
  ⟨k, user_id, d, labelFor k, styleFor k, customId k user_id d⟩

/-- `AbstractDynamicButton.from_custom_id`: rebuilds a button from the
matched groups, `cls(int(match[...]), DiceSet(match[...]))`; the DiceSet
constructor may reject the captured string. -/
def from_custom_id (k : FollowKind) (user_id : Nat) (dsStr : String) :
    Except DiceSetError ButtonItem :=
  (DiceSet.parse dsStr).map (fun d => mkButton k user_id d)

/-- `RollView.__init__`: adds the reroll / free-reroll / all-in buttons
exactly when the corresponding legality argument is true. -/
def rollViewItems (user_id : Nat) (d : DiceSet)
    (can_reroll can_free_reroll can_go_all_in : Bool) : List ButtonItem :=
  (if can_reroll then [mkButton .reroll user_id d] else []) ++
  (if can_free_reroll then [mkButton .freeReroll user_id d] else []) ++
  (if can_go_all_in then [mkButton .allIn user_id d] else [])

/-- Whether a view contains a button of the given kind. -/
def viewHasKind (v : List ButtonItem) (k : FollowKind) : Bool :=
  v.any (fun it => it.kind == k)

/-- The interaction data the controller reads: the pressing user's id and
the current content of the message the button hangs off. -/
structure Interaction where
  user_id : Nat
  message_content : String
deriving DecidableEq, Repr

/-- The message sent by `RollController.handle_roll`. -/
structure SentRollMessage where
  content : String
  view : List ButtonItem
deriving DecidableEq, Repr

/-- `RollController.handle_roll`: rolls a fresh session and responds with
the rendered message plus a view whose buttons reflect the three
legality queries of the fresh history. -/
def handle_roll (i : Interaction) (d : DiceSet) (num_dice : Nat)
    (rng : Nat → DieFace) (elig : Outcome → Eligibility) : SentRollMessage :=
  let h := Roller.roll num_dice rng elig
  { content := MessageGenerator.generate_roll_message d h
    view := rollViewItems i.user_id d h.can_reroll h.can_free_reroll
      h.can_go_all_in }

/-- Observable result of a button press, as produced by
`interaction_check`, the three `callback`s and `_update_message`. -/
inductive PressResult where
  /-- `interaction_check` failed: an ephemeral notice is sent to the
  actor and the callback never runs. -/
  | rejectedNotice (text : String) (ephemeral : Bool)
  /-- `MessageParser` raised and the exception left the callback. -/
  | raisedParseError (e : ParseError)
  /-- The callback raised `RuntimeError(msg)` because its legality
  re-check failed; the exception leaves the callback uncaught. -/
  | raisedRuntimeError (msg : String)
  /-- A Roller transition raised `IllegalTransition` out of the
  callback (unreachable after the legality re-check). -/
  | raisedIllegal (e : RollError)
  /-- Transition applied and the message edit succeeded: the new
  content, the regenerated view and the resulting history. -/
  | edited (content : String) (view : List ButtonItem) (history : RollHistory)
  /-- Transition applied but the message edit failed: the failure is
  only printed, the transitioned history is kept. -/
  | editFailedLogged (attempted : String) (history : RollHistory)
deriving DecidableEq, Repr

/-- The RuntimeError message of each callback's legality guard. -/
def runtimeMsgFor : FollowKind → String
  | .reroll => "Cannot perform reroll"
  | .freeReroll => "Cannot perform free reroll"
  | .allIn => "Cannot go all in"

/-- `AbstractDynamicButton.interaction_check`: the press is admitted
exactly when the actor is the button's owning user. -/
def interaction_check (button_user_id : Nat) (i : Interaction) : Bool :=
  i.user_id == button_user_id

/-- `AbstractDynamicButton._update_message`: regenerate the view from
the post-transition legality queries with `interaction.user.id` as the
owning user, render the message, and attempt the edit, only printing on
failure; `editOk` resolves whether the platform edit succeeds. -/
def update_message (ds : DiceSet) (i : Interaction) (h : RollHistory)
    (editOk : Bool) : PressResult :=
  let v := rollViewItems i.user_id ds h.can_reroll h.can_free_reroll
    h.can_go_all_in
  let c := MessageGenerator.generate_roll_message ds h
  if editOk then .edited c v h else .editFailedLogged c h

/-- The shared body of the three `callback`s: parse the history back out
of the message content, re-check the kind's legality query (raising
`RuntimeError` when it fails), dispatch the kind's Roller transition,
then update the message; `sample` resolves the dice of the re-roll. -/
def buttonCallback (k : FollowKind) (b : ButtonItem) (i : Interaction)
    (sample : Outcome) (editOk : Bool) : PressResult :=
  match MessageParser.parse b.dice_set i.message_content with
  | .error e => .raisedParseError e
  | .ok h =>
    if canFor k h then
      match applyFollow k h sample with
      | .error e => .raisedIllegal e
      | .ok h2 => update_message b.dice_set i h2 editOk
    else .raisedRuntimeError (runtimeMsgFor k)

/-- A button press as the dispatcher drives it: the callback runs only
when `interaction_check` passes; otherwise the actor gets the ephemeral
notice and nothing else happens. -/
def pressButton (k : FollowKind) (b : ButtonItem) (i : Interaction)
    (sample : Outcome) (editOk : Bool) : PressResult :=
  if interaction_check b.user_id i then buttonCallback k b i sample editOk
  else .rejectedNotice "You cannot re-roll someone else's roll." true

/-- The content of the rolled message after a press: only a successful
edit changes it. -/
def contentAfter (orig : String) : PressResult → String
  | .edited c _ _ => c
  | _ => orig

/-- Example fixture: the dice set used by the concrete witness
instances. -/
def exDice : DiceSet := ⟨"basic"⟩

/-- Example fixture: a freshly rolled, non-terminal session. -/
def exFreshHistory : RollHistory :=
  { outcomes := [[0, 3]], reroll_available := true,
    free_reroll_available := true, all_in_available := true,
    action_fired := false }

/-- Example fixture: a terminal session whose free-reroll and all-in
flags are still independently true. -/
def exTerminalHistory : RollHistory :=
  { outcomes := [[0, 3], [5]], reroll_available := false,
    free_reroll_available := true, all_in_available := true,
    action_fired := true }

/-- Example fixture: the session of `exFreshHistory` after a reroll of
`[2]`. -/
def exPressedHistory : RollHistory :=
  { outcomes := [[0, 3], [2]], reroll_available := false,
    free_reroll_available := true, all_in_available := true,
    action_fired := true }

/-- Example fixture: the reroll button owned by user 5. -/
def exButton : ButtonItem := mkButton .reroll 5 exDice

/-- Example fixture: user 5 pressing on the fresh session's message. -/
def exInteraction : Interaction :=
  ⟨5, MessageGenerator.generate_roll_message exDice exFreshHistory⟩

/-- Example fixture: user 5 pressing on the terminal session's
message. -/
def exTermInteraction : Interaction :=
  ⟨5, MessageGenerator.generate_roll_message exDice exTerminalHistory⟩

/-- Example fixture: user 7 pressing on the fresh session's message
owned by user 5. -/
def exOtherInteraction : Interaction :=
  ⟨7, MessageGenerator.generate_roll_message exDice exFreshHistory⟩

theorem applyFollow_fires (k : FollowKind) (h h' : RollHistory)
    (s : Outcome) (hap : applyFollow k h s = .ok h') :
    h'.action_fired = true := by
  cases k <;>
    simp only [applyFollow, RollHistory.reroll, RollHistory.free_reroll,
      RollHistory.all_in] at hap <;>
    split at hap <;> simp_all <;> subst hap <;> rfl

theorem canFor_of_fired (k : FollowKind) (h : RollHistory)
    (hf : h.action_fired = true) : canFor k h = false := by
  cases k <;>
    simp [canFor, RollHistory.can_reroll, RollHistory.can_free_reroll,
      RollHistory.can_go_all_in, hf]

theorem applyFollow_error_of_not_can (k : FollowKind) (h : RollHistory)
    (s : Outcome) (hc : canFor k h = false) :
    applyFollow k h s = .error .IllegalTransition := by
  cases k <;>
    simp only [canFor] at hc <;>
    simp [applyFollow, RollHistory.reroll, RollHistory.free_reroll,
      RollHistory.all_in, hc]

/-- C1: for every roll session, at most one of the three follow-up
actions ever fires: after any one of them has fired, a subsequent call to
any of the three (including the same one) fails with `IllegalTransition`,
even if that action's own right flag was independently true. -/
theorem followup_fires_at_most_once (k k' : FollowKind)
    (h h' : RollHistory) (s s' : Outcome)
    (hap : applyFollow k h s = .ok h') :
    applyFollow k' h' s' = .error .IllegalTransition :=
  applyFollow_error_of_not_can k' h' s'
    (canFor_of_fired k' h' (applyFollow_fires k h h' s hap))

/-- Concrete instance of `followup_fires_at_most_once`: after a reroll
fires on a fresh rolled session whose free-reroll right was independently
true, a free-reroll call fails with `IllegalTransition`. -/
theorem followup_fires_at_most_once_witness :
    applyFollow .freeReroll exPressedHistory [4]
      = .error .IllegalTransition :=
  followup_fires_at_most_once .reroll .freeReroll
    exFreshHistory exPressedHistory [2] [4] rfl

/-- C7: for every supported dice count, `roll()` on a fresh session
records exactly one outcome, leaves the session non-terminal, always
offers the reroll, and sets the free-reroll / all-in flags to the
eligibility the outcome's rules dictate. -/
theorem roll_fresh_properties (n : Nat) (rng : Nat → DieFace)
    (elig : Outcome → Eligibility) :
    (Roller.roll n rng elig).outcomes = [rollDice n rng] ∧
    (Roller.roll n rng elig).outcomes.length = 1 ∧
    (Roller.roll n rng elig).action_fired = false ∧
    (Roller.roll n rng elig).reroll_available = true ∧
    (Roller.roll n rng elig).free_reroll_available
      = (elig (rollDice n rng)).free_reroll ∧
    (Roller.roll n rng elig).all_in_available
      = (elig (rollDice n rng)).all_in := by
  refine ⟨rfl, rfl, rfl, rfl, rfl, rfl⟩

/-- C5: every valid DiceSet short string round-trips through the
constructor unchanged, an invalid string is rejected with an error rather
than silently defaulted, and in particular "basic" parses and
re-serializes to "basic". -/
theorem dice_set_roundtrip (s : String) :
    (DiceSet.isValid s = true →
      DiceSet.parse s = .ok ⟨s⟩ ∧
      (DiceSet.parse s).map DiceSet.serialize = .ok s) ∧
    (DiceSet.isValid s = false →
      DiceSet.parse s = .error .invalid) ∧
    (DiceSet.parse "basic").map DiceSet.serialize = .ok "basic" := by
  refine ⟨fun hv => ?_, fun hv => ?_, rfl⟩
  · simp [DiceSet.parse, hv, DiceSet.serialize, Except.map]
  · simp [DiceSet.parse, hv]

/-- Concrete instance of `dice_set_roundtrip` at the valid string
"basic" and the invalid string "bogus". -/
theorem dice_set_roundtrip_witness :
    ((DiceSet.parse "basic").map DiceSet.serialize = .ok "basic") ∧
    DiceSet.parse "bogus" = .error .invalid :=
  ⟨((dice_set_roundtrip "basic").1 (by decide)).2,
   ((dice_set_roundtrip "bogus").2.1 (by decide))⟩

theorem decodeDie_encodeDie (d : DieFace) : decodeDie (encodeDie d) = some d := by
  fin_cases d <;> rfl

theorem encodeDie_ne_marker (d : DieFace) : ¬(encodeDie d = 'o') := by
  fin_cases d <;> decide

theorem decodeFlag_encodeFlag (b : Bool) : decodeFlag (encodeFlag b) = some b := by
  cases b <;> rfl

theorem decodeOutcomesAux_dice (oc : Outcome) (rest : List Char)
    (cur : Outcome) (prev : List Outcome) :
    decodeOutcomesAux (oc.map encodeDie ++ rest) (cur :: prev)
      = decodeOutcomesAux rest ((oc.reverse ++ cur) :: prev) := by
  induction oc generalizing cur with
  | nil => simp
  | cons d ds ih =>
    simp only [List.map_cons, List.cons_append, decodeOutcomesAux,
      if_neg (encodeDie_ne_marker d), decodeDie_encodeDie, List.append_eq]
    rw [ih]
    simp [List.append_assoc]

theorem decodeOutcomesAux_encode (l : List Outcome) (acc : List Outcome) :
    decodeOutcomesAux (encodeOutcomes l) acc
      = some ((acc.map List.reverse).reverse ++ l) := by
  induction l generalizing acc with
  | nil => simp [encodeOutcomes, decodeOutcomesAux]
  | cons oc l ih =>
    have he : encodeOutcomes (oc :: l)
        = 'o' :: (oc.map encodeDie ++ encodeOutcomes l) := by
      simp [encodeOutcomes]
    rw [he]
    simp only [decodeOutcomesAux, if_pos rfl]
    rw [decodeOutcomesAux_dice, ih]
    simp

theorem decodeOutcomes_encodeOutcomes (l : List Outcome) :
    decodeOutcomes (encodeOutcomes l) = some l := by
  simpa [decodeOutcomes] using decodeOutcomesAux_encode l []

/-- C4: round-trip law of the message mini-format — parsing the text
produced by the generator on any RollHistory and DiceSet succeeds and
yields a RollHistory with the same outcome sequence and the same three
right flags. -/
theorem message_roundtrip (h : RollHistory) (d : DiceSet) :
    ∃ h2, MessageParser.parse d (MessageGenerator.generate_roll_message d h)
        = .ok h2 ∧
      h2.outcomes = h.outcomes ∧
      h2.reroll_available = h.reroll_available ∧
      h2.free_reroll_available = h.free_reroll_available ∧
      h2.all_in_available = h.all_in_available := by
  refine ⟨h, ?_, rfl, rfl, rfl, rfl⟩
  simp [MessageParser.parse, MessageGenerator.generate_roll_message,
    parseRollChars, decodeFlag_encodeFlag, decodeOutcomes_encodeOutcomes]

theorem stripLit_append (p r : List Char) : stripLit p (p ++ r) = some r := by
  induction p with
  | nil => rfl
  | cons c cs ih => simp [stripLit, ih]

theorem spanDigits_append_colon (l r : List Char)
    (hl : ∀ c ∈ l, isDigitChar c = true) :
    spanDigits (l ++ ':' :: r) = (l, ':' :: r) := by
  induction l with
  | nil =>
    have : isDigitChar ':' = false := by decide
    simp [spanDigits, this]
  | cons c cs ih =>
    have hc : isDigitChar c = true := hl c (by simp)
    have ihr := ih (fun x hx => hl x (by simp [hx]))
    simp [spanDigits, hc, ihr]

theorem isDigitChar_digitToChar (d : Nat) (hd : d < 10) :
    isDigitChar (digitToChar d) = true := by
  interval_cases d <;> rfl

theorem charToDigit_digitToChar (d : Nat) (hd : d < 10) :
    charToDigit (digitToChar d) = d := by
  interval_cases d <;> rfl

theorem natToChars_all_digits (n : Nat) :
    ∀ c ∈ natToChars n, isDigitChar c = true := by
  intro c hc
  unfold natToChars at hc
  split at hc
  · simp at hc
    subst hc
    rfl
  · simp only [List.mem_reverse, List.mem_map] at hc
    obtain ⟨d, hd, rfl⟩ := hc
    exact isDigitChar_digitToChar d (Nat.digits_lt_base (by norm_num) hd)

theorem natToChars_ne_nil (n : Nat) : natToChars n ≠ [] := by
  unfold natToChars
  split
  · simp
  · simp_all [Nat.digits_ne_nil_iff_ne_zero]

theorem parseNatChars_natToChars (n : Nat) :
    parseNatChars (natToChars n) = n := by
  unfold natToChars
  split
  · subst_eqs
    simp [parseNatChars, charToDigit, Nat.ofDigits]
  · have h10 : ∀ d ∈ Nat.digits 10 n, d < 10 :=
      fun d hd => Nat.digits_lt_base (by norm_num) hd
    simp only [parseNatChars, List.map_reverse, List.reverse_reverse,
      List.map_map]
    have hmap : List.map (charToDigit ∘ digitToChar) (Nat.digits 10 n)
        = List.map id (Nat.digits 10 n) :=
      List.map_congr_left (fun d hd => charToDigit_digitToChar d (h10 d hd))
    rw [hmap]
    simp [Nat.ofDigits_digits]

theorem templateFullmatch_customId (w : Char → Bool) (k : FollowKind)
    (uid : Nat) (v : List Char) :
    templateFullmatch w k (String.mk (customIdChars k uid v))
      = if !v.isEmpty && v.all w then some (uid, String.mk v)
        else none := by
  obtain ⟨c0, cs0, e⟩ := List.exists_cons_of_ne_nil (natToChars_ne_nil uid)
  have hspan : spanDigits (natToChars uid ++ (diceSetSep ++ v))
      = (natToChars uid, diceSetSep ++ v) :=
    spanDigits_append_colon _ _ (natToChars_all_digits uid)
  rw [e] at hspan
  have hpn : parseNatChars (c0 :: cs0) = uid := by
    rw [← e]
    exact parseNatChars_natToChars uid
  have hdata : customIdChars k uid v
      = headChars k ++ ((c0 :: cs0) ++ (diceSetSep ++ v)) := by
    simp [customIdChars, List.append_assoc, e]
  simp only [templateFullmatch, hdata, stripLit_append, hspan, hpn]

/-- C9: token round-trip for word-character dice-set values, stated for
an arbitrary word-character class `w` so that it holds in particular for
the Unicode-aware `\w` of the real regex engine — for every user id and
DiceSet whose canonical value is a nonempty string of characters of the
class, the custom id built by a button constructor re-matches that
button class's template with the same user id and value captured, and
`from_custom_id` (when the DiceSet constructor accepts the captured
value) rebuilds a button equal to the original; while a dice-set value
containing any character outside the class produces a custom id that
fails the template full-match, so the button is never re-dispatched. -/
theorem token_roundtrip (w : Char → Bool) (k : FollowKind)
    (user_id : Nat) (d : DiceSet) (v : String) :
    ((d.value.data ≠ [] ∧ ∀ c ∈ d.value.data, w c = true) →
      templateFullmatch w k (customId k user_id d)
          = some (user_id, d.value) ∧
      (DiceSet.isValid d.value = true →
        from_custom_id k user_id d.value = .ok (mkButton k user_id d))) ∧
    ((∃ c ∈ v.data, w c = false) →
      templateFullmatch w k (String.mk (customIdChars k user_id v.data))
        = none) := by
  constructor
  · rintro ⟨hne, hall⟩
    constructor
    · have h1 : d.value.data.isEmpty = false := by
        simpa [List.isEmpty_iff] using hne
      have h2 : d.value.data.all w = true := List.all_eq_true.mpr hall
      rw [customId, templateFullmatch_customId]
      simp [h1, h2]
    · intro hv
      cases d with
      | mk s => simp [from_custom_id, DiceSet.parse, hv, Except.map]
  · rintro ⟨c, hc, hw⟩
    have hA : v.data.all w = false := by
      rcases hB : v.data.all w with _ | _
      · rfl
      · rw [List.all_eq_true] at hB
        rw [hB c hc] at hw
        cases hw
    rw [templateFullmatch_customId]
    simp [hA]

/-- Concrete instance of `token_roundtrip`, with the word-character
class instantiated to its decidable ASCII part (on which it agrees with
the Unicode-aware class for these inputs): user 5 with the "basic" dice
set round-trips through the reroll template, and the value "a:b" fails
the full-match. -/
theorem token_roundtrip_witness :
    (templateFullmatch asciiWordChar .reroll (customId .reroll 5 exDice)
        = some (5, "basic") ∧
      from_custom_id .reroll 5 "basic" = .ok (mkButton .reroll 5 exDice)) ∧
    templateFullmatch asciiWordChar .reroll
        (String.mk (customIdChars .reroll 5 ("a:b".data))) = none :=
  ⟨⟨((token_roundtrip asciiWordChar .reroll 5 exDice "a:b").1
      (by decide)).1,
    ((token_roundtrip asciiWordChar .reroll 5 exDice "a:b").1
      (by decide)).2 (by decide)⟩,
   (token_roundtrip asciiWordChar .reroll 5 exDice "a:b").2 (by decide)⟩

/-- C3: for every action token generated for owning user A, a button
press by any user B with B ≠ A is rejected before any transition runs: B
receives an ephemeral, actor-only notice and the original message is
left untouched. -/
theorem unauthorized_press_rejected (k : FollowKind) (b : ButtonItem)
    (i : Interaction) (sample : Outcome) (editOk : Bool)
    (hne : i.user_id ≠ b.user_id) :
    pressButton k b i sample editOk
      = .rejectedNotice "You cannot re-roll someone else's roll." true ∧
    contentAfter i.message_content (pressButton k b i sample editOk)
      = i.message_content := by
  have hch : interaction_check b.user_id i = false := by
    simp [interaction_check, hne]
  constructor
  · simp [pressButton, hch]
  · simp [pressButton, hch, contentAfter]

/-- Concrete instance of `unauthorized_press_rejected`: user 7 pressing
user 5's reroll button only gets the ephemeral notice. -/
theorem unauthorized_press_rejected_witness :
    pressButton .reroll exButton exOtherInteraction [2] true
      = .rejectedNotice "You cannot re-roll someone else's roll." true ∧
    contentAfter exOtherInteraction.message_content
        (pressButton .reroll exButton exOtherInteraction [2] true)
      = exOtherInteraction.message_content :=
  unauthorized_press_rejected .reroll exButton exOtherInteraction [2] true
    (by decide)

/-- C2 counterexample: a reroll press on a session whose reroll guard is
false does not produce a user-visible "no longer available" notice (the
`rejectedNotice` constructor); the callback instead raises an uncaught
`RuntimeError('Cannot perform reroll')`, refuting the claim that such a
failure is recovered locally and never surfaced as an unhandled fault. -/
theorem illegal_transition_not_noticed_cex :
    pressButton .reroll exButton exTermInteraction [2] true
      = .raisedRuntimeError "Cannot perform reroll" := by
  decide

/-- C2 amended: whenever a follow-up action is attempted whose guard is
false, the callback raises an uncaught `RuntimeError` (with the kind's
message) before any transition runs; no transition is applied, no notice
is presented, and the message is left unedited. -/
theorem illegal_transition_raises (k : FollowKind) (b : ButtonItem)
    (i : Interaction) (sample : Outcome) (editOk : Bool) (h : RollHistory)
    (hu : i.user_id = b.user_id)
    (hp : MessageParser.parse b.dice_set i.message_content = .ok h)
    (hg : canFor k h = false) :
    pressButton k b i sample editOk
      = .raisedRuntimeError (runtimeMsgFor k) ∧
    contentAfter i.message_content (pressButton k b i sample editOk)
      = i.message_content := by
  have hch : interaction_check b.user_id i = true := by
    simp [interaction_check, hu]
  constructor <;>
    simp [pressButton, hch, buttonCallback, hp, hg, contentAfter]

/-- Concrete instance of `illegal_transition_raises`: a free-reroll press
on a terminal session raises RuntimeError and leaves the message as it
was. -/
theorem illegal_transition_raises_witness :
    pressButton .freeReroll exButton exTermInteraction [2] true
      = .raisedRuntimeError "Cannot perform free reroll" ∧
    contentAfter exTermInteraction.message_content
        (pressButton .freeReroll exButton exTermInteraction [2] true)
      = exTermInteraction.message_content :=
  illegal_transition_raises .freeReroll exButton exTermInteraction [2] true
    exTerminalHistory rfl (by decide) (by decide)

theorem viewHasKind_rollViewItems (uid : Nat) (d : DiceSet) (r f a : Bool) :
    viewHasKind (rollViewItems uid d r f a) .reroll = r ∧
    viewHasKind (rollViewItems uid d r f a) .freeReroll = f ∧
    viewHasKind (rollViewItems uid d r f a) .allIn = a := by
  cases r <;> cases f <;> cases a <;>
    simp [viewHasKind, rollViewItems, mkButton]

/-- C6: the rendered action set reflects the legality queries — a view
built by `RollView.__init__` contains each button exactly when its
legality argument is true, the view attached by `handle_roll` and by
`_update_message` is built from the three post-transition legality
queries, and each button's callback re-checks its own legality query and
refuses to dispatch the transition when it is false. -/
theorem view_reflects_legality (uid num_dice : Nat) (d : DiceSet)
    (i : Interaction) (rng : Nat → DieFace) (elig : Outcome → Eligibility)
    (h h2 : RollHistory) (k : FollowKind) (b : ButtonItem)
    (sample : Outcome) (editOk : Bool) (r f a : Bool)
    (hp : MessageParser.parse b.dice_set i.message_content = .ok h2)
    (hg : canFor k h2 = false) :
    viewHasKind (rollViewItems uid d r f a) .reroll = r ∧
    viewHasKind (rollViewItems uid d r f a) .freeReroll = f ∧
    viewHasKind (rollViewItems uid d r f a) .allIn = a ∧
    (handle_roll i d num_dice rng elig).view
      = rollViewItems i.user_id d
          (Roller.roll num_dice rng elig).can_reroll
          (Roller.roll num_dice rng elig).can_free_reroll
          (Roller.roll num_dice rng elig).can_go_all_in ∧
    update_message d i h true
      = .edited (MessageGenerator.generate_roll_message d h)
          (rollViewItems i.user_id d h.can_reroll h.can_free_reroll
            h.can_go_all_in) h ∧
    buttonCallback k b i sample editOk
      = .raisedRuntimeError (runtimeMsgFor k) := by
  obtain ⟨hr, hf, ha⟩ := viewHasKind_rollViewItems uid d r f a
  refine ⟨hr, hf, ha, rfl, rfl, ?_⟩
  simp [buttonCallback, hp, hg]

/-- Concrete instance of `view_reflects_legality`. -/
theorem view_reflects_legality_witness :
    viewHasKind (rollViewItems 5 exDice true false true) .reroll = true ∧
    viewHasKind (rollViewItems 5 exDice true false true) .freeReroll
      = false ∧
    viewHasKind (rollViewItems 5 exDice true false true) .allIn = true ∧
    (handle_roll exTermInteraction exDice 3 (fun _ => 0)
        (fun _ => ⟨true, true⟩)).view
      = rollViewItems exTermInteraction.user_id exDice
          (Roller.roll 3 (fun _ => 0) (fun _ => ⟨true, true⟩)).can_reroll
          (Roller.roll 3 (fun _ => 0)
            (fun _ => ⟨true, true⟩)).can_free_reroll
          (Roller.roll 3 (fun _ => 0)
            (fun _ => ⟨true, true⟩)).can_go_all_in ∧
    update_message exDice exTermInteraction exFreshHistory true
      = .edited
          (MessageGenerator.generate_roll_message exDice exFreshHistory)
          (rollViewItems exTermInteraction.user_id exDice
            exFreshHistory.can_reroll exFreshHistory.can_free_reroll
            exFreshHistory.can_go_all_in) exFreshHistory ∧
    buttonCallback .reroll exButton exTermInteraction [2] true
      = .raisedRuntimeError (runtimeMsgFor .reroll) :=
  view_reflects_legality 5 3 exDice exTermInteraction (fun _ => 0)
    (fun _ => ⟨true, true⟩) exFreshHistory exTerminalHistory .reroll
    exButton [2] true true false true (by decide) (by decide)

/-- C8: message edits are best-effort and decoupled from state — when the
edit fails after the follow-up transition was applied, the press ends in
a logged edit failure carrying the already-transitioned history, the
session stays consumed (terminal), and the transition is not rolled
back. -/
theorem edit_failure_no_rollback (k : FollowKind) (b : ButtonItem)
    (i : Interaction) (sample : Outcome) (h h2 : RollHistory)
    (hu : i.user_id = b.user_id)
    (hp : MessageParser.parse b.dice_set i.message_content = .ok h)
    (hg : canFor k h = true)
    (hap : applyFollow k h sample = .ok h2) :
    pressButton k b i sample false
      = .editFailedLogged
          (MessageGenerator.generate_roll_message b.dice_set h2) h2 ∧
    h2.action_fired = true ∧
    contentAfter i.message_content (pressButton k b i sample false)
      = i.message_content := by
  have hch : interaction_check b.user_id i = true := by
    simp [interaction_check, hu]
  have hres : pressButton k b i sample false
      = .editFailedLogged
          (MessageGenerator.generate_roll_message b.dice_set h2) h2 := by
    simp [pressButton, hch, buttonCallback, hp, hg, hap, update_message]
  refine ⟨hres, applyFollow_fires k h h2 sample hap, ?_⟩
  rw [hres]
  rfl

/-- Concrete instance of `edit_failure_no_rollback`: a reroll whose edit
fails still leaves the session consumed. -/
theorem edit_failure_no_rollback_witness :
    pressButton .reroll exButton exInteraction [2] false
      = .editFailedLogged
          (MessageGenerator.generate_roll_message exDice exPressedHistory)
          exPressedHistory ∧
    exPressedHistory.action_fired = true ∧
    contentAfter exInteraction.message_content
        (pressButton .reroll exButton exInteraction [2] false)
      = exInteraction.message_content :=
  edit_failure_no_rollback .reroll exButton exInteraction [2]
    exFreshHistory exPressedHistory rfl (by decide) (by decide) (by decide)

theorem rollViewItems_user (uid : Nat) (d : DiceSet) (r f a : Bool) :
    ∀ it ∈ rollViewItems uid d r f a, it.user_id = uid := by
  intro it hit
  simp only [rollViewItems, List.mem_append] at hit
  rcases hit with (hit | hit) | hit <;> split at hit <;>
    simp_all [mkButton]

/-- C10: session ownership is preserved across edits — whenever a press
ends in a successful edit, the regenerated view was constructed with
`interaction.user.id` as the owning user, that id equals the pressed
button's stored owner (by `interaction_check`), and so every regenerated
button encodes the owner of the original roll's buttons. -/
theorem ownership_preserved (k : FollowKind) (b : ButtonItem)
    (i : Interaction) (sample : Outcome) (editOk : Bool)
    (c : String) (v : List ButtonItem) (h2 : RollHistory)
    (he : pressButton k b i sample editOk = .edited c v h2) :
    v = rollViewItems i.user_id b.dice_set h2.can_reroll
        h2.can_free_reroll h2.can_go_all_in ∧
    i.user_id = b.user_id ∧
    v.all (fun it => it.user_id == b.user_id) = true := by
  by_cases hu : i.user_id = b.user_id
  case neg =>
    have hch : interaction_check b.user_id i = false := by
      simp [interaction_check, hu]
    simp [pressButton, hch] at he
  case pos =>
    have hch : interaction_check b.user_id i = true := by
      simp [interaction_check, hu]
    simp only [pressButton, hch, if_true] at he
    rcases hpe : MessageParser.parse b.dice_set i.message_content with e | h0
    all_goals simp only [buttonCallback, hpe] at he
    · simp at he
    · by_cases hg : canFor k h0
      case neg => simp [hg] at he
      case pos =>
        rcases hap : applyFollow k h0 sample with e | h2A
        all_goals rw [hap] at he
        · simp [hg] at he
        · cases editOk
          · simp [hg, update_message] at he
          · simp only [hg, if_true, update_message] at he
            obtain ⟨hc, hv, hh⟩ := PressResult.edited.injEq .. ▸ he
            subst hh
            refine ⟨hv.symm, hu, ?_⟩
            subst hv
            exact List.all_eq_true.mpr (fun it hit => by
              rw [beq_iff_eq]
              exact (rollViewItems_user i.user_id b.dice_set _ _ _ it
                hit).trans hu)

/-- Concrete instance of `ownership_preserved`: user 5's successful
reroll press regenerates the (here empty) view for owner 5. -/
theorem ownership_preserved_witness :
    ([] : List ButtonItem)
      = rollViewItems exInteraction.user_id exButton.dice_set
          exPressedHistory.can_reroll exPressedHistory.can_free_reroll
          exPressedHistory.can_go_all_in ∧
    exInteraction.user_id = exButton.user_id ∧
    ([] : List ButtonItem).all
        (fun it => it.user_id == exButton.user_id) = true :=
  ownership_preserved .reroll exButton exInteraction [2] true
    (MessageGenerator.generate_roll_message exDice exPressedHistory) []
    exPressedHistory (by decide)
